import Mathlib

/-!
Verification of the mhealthx repository (extract.py, extractors.py,
synapse_io.py) against its natural-language specification.

The Python functions are shallowly embedded: every external effect
(the filesystem, the SMILExtract subprocess, the Synapse service, the
pyGait signal-processing helpers) is supplied by an explicit environment
record, and each embedded function additionally returns the list of
side-effect events it performed, in order.  Numeric cell values are
modelled as integers: none of the verified properties depend on
floating-point arithmetic, only on which values flow where.
-/

set_option autoImplicit false

namespace Mhealthx

/-- A table row (a pandas `Series`, or a one-row `DataFrame`): an ordered
list of labelled values. -/
abbrev Row := List (String × Int)

/-- The `row` argument of `run_openSMILE` / `run_pyGait`: the Python code
tests `isinstance(row, pd.Series)`, so the argument is either a Series or
some other value. -/
inductive RowArg where
  | notSeries
  | series (r : Row)
  deriving DecidableEq

/-- Side effects performed by `run_openSMILE` / `run_pyGait`
(extract.py): the external SMILExtract invocation (via
`mhealthx.utilities.run_command`), `pd.read_csv`, the error print of an
`except IOError` handler, `feature_row.to_csv`, and
`mhealthx.xio.row_to_table`. -/
inductive Event where
  | runCommand (command flag1 arg1 flags args flagn argn closing : String)
  | readCsv (path sep : String)
  | printError
  | toCsv (path : String)
  | rowToTable (path : String)
  deriving DecidableEq

/-- `os.path.basename`: the part of the path after the last `/`. -/
def basename (s : String) : String :=
  String.mk ((s.data.reverse.takeWhile (fun c => c ≠ '/')).reverse)

/-- extract.py lines 129-135 and 265-269: build the feature row from the
original row and the extracted row data.  `pd.concat([row,
row_data.transpose()], axis=0).transpose()` places the entries of `row`
before the entries of `row_data`; when `row` is empty or not a Series the
row data is used alone. -/
def buildFeatureRow (row : RowArg) (row_data : Row) : Row :=
  match row with
  | RowArg.series r => if r.isEmpty then row_data else r ++ row_data
  | RowArg.notSeries => row_data

/-- Environment of `run_openSMILE`: `os.path.isfile`, `pd.read_csv`
(`none` models an `IOError`; otherwise the parsed row data),
and whether `to_csv` / `row_to_table` succeed on a given path
(`false` models an `IOError`). -/
structure OpenSmileEnv where
  isfile : String → Bool
  readCsv : String → Option Row
  toCsvOk : String → Bool
  rowToTableOk : String → Bool

/-- The pair returned by `run_openSMILE` / `run_pyGait` (`none` models
Python's `None`), together with the trace of effects performed. -/
structure ExtractResult where
  feature_row : Option Row
  feature_table : Option String
  trace : List Event
  deriving DecidableEq

/-- extract.py lines 13-154, `run_openSMILE`.
`mhealthx.utilities.run_command` is not under src/; modelled from the
spec: it runs the external command built from its arguments and returns
`(cline, args, arg1, argn)`, echoing back the `args`, `arg1` and `argn`
it was given, so the subsequent `pd.read_csv(argn, sep=";")` reads the
output file `audio_file + '.csv'` named at the call site. -/
def run_openSMILE (env : OpenSmileEnv)
    (audio_file command flag1 flags args flagn closing : String)
    (row : RowArg) (table_stem : String) (save_rows : Bool) : ExtractResult :=
  if env.isfile audio_file then
    let argn := audio_file ++ ".csv"
    let t0 := [Event.runCommand command flag1 audio_file flags args flagn argn closing,
               Event.readCsv argn ";"]
    match env.readCsv argn with
    | none =>
        -- `except IOError`: print the error; feature_row and
        -- feature_table keep their initial value None.
        ⟨none, none, t0 ++ [Event.printError]⟩
    | some row_data =>
        let feature_row := buildFeatureRow row row_data
        if save_rows then
          let feature_table := table_stem ++ "_" ++ basename argn
          if env.toCsvOk feature_table then
            ⟨some feature_row, some feature_table, t0 ++ [Event.toCsv feature_table]⟩
          else
            ⟨some feature_row, none, t0 ++ [Event.toCsv feature_table, Event.printError]⟩
        else
          let feature_table := table_stem ++ ".csv"
          if env.rowToTableOk feature_table then
            ⟨some feature_row, some feature_table, t0 ++ [Event.rowToTable feature_table]⟩
          else
            ⟨some feature_row, none, t0 ++ [Event.rowToTable feature_table, Event.printError]⟩
  else
    ⟨none, none, []⟩

/-- The sixteen values returned by `mhealthx.extractors.pyGait.gait`
(external black box, unpacked at extract.py lines 241-245). -/
structure GaitOut where
  number_of_steps : Int
  cadence : Int
  velocity : Int
  avg_step_length : Int
  avg_stride_length : Int
  step_durations : List Int
  avg_step_duration : Int
  sd_step_durations : Int
  strides : List Int
  stride_durations : List Int
  avg_number_of_strides : Int
  avg_stride_duration : Int
  sd_stride_durations : Int
  step_regularity : Int
  stride_regularity : Int
  symmetry : Int

/-- Environment of `run_pyGait`: the external
`mhealthx.extractors.pyGait.heel_strikes` and `gait` routines and
`mhealthx.signals.root_mean_square`, plus the write outcomes. -/
structure PyGaitEnv where
  heel_strikes : List Int → Int → Int → Int → Int → Bool → List Int → (List Int × List Nat)
  gait : List Int → List Int → Int → Option Int → GaitOut
  root_mean_square : List Int → Int
  toCsvOk : String → Bool
  rowToTableOk : String → Bool

/-- extract.py lines 249-263: the one-row DataFrame of feature values,
in the order of the dict literal, each value taken from the pyGait
outputs. -/
def pyGaitRowData (g : GaitOut) (RMS : Int) : Row :=
  [("number_of_steps", g.number_of_steps),
   ("cadence", g.cadence),
   ("velocity", g.velocity),
   ("avg_step_length", g.avg_step_length),
   ("avg_stride_length", g.avg_stride_length),
   ("avg_step_duration", g.avg_step_duration),
   ("sd_step_durations", g.sd_step_durations),
   ("avg_number_of_strides", g.avg_number_of_strides),
   ("avg_stride_duration", g.avg_stride_duration),
   ("sd_stride_durations", g.sd_stride_durations),
   ("step_regularity", g.step_regularity),
   ("stride_regularity", g.stride_regularity),
   ("symmetry", g.symmetry),
   ("RMS", RMS)]

/-- extract.py lines 157-288, `run_pyGait`.  `_stride_fraction` and
`_threshold1` are parameters of the Python function that its body never
uses (they are consumed by the caller's projection step). -/
def run_pyGait (env : PyGaitEnv) (data t : List Int)
    (sample_rate duration _stride_fraction _threshold1 threshold2 order cutoff : Int)
    (distance : Option Int) (row : RowArg)
    (file_path table_stem : String) (save_rows : Bool) : ExtractResult :=
  let strikes := (env.heel_strikes data sample_rate threshold2 order cutoff false t).1
  let g := env.gait strikes data duration distance
  let RMS := env.root_mean_square data
  let row_data := pyGaitRowData g RMS
  let feature_row := buildFeatureRow row row_data
  if save_rows then
    let feature_table := table_stem ++ "_" ++ basename file_path ++ ".csv"
    if env.toCsvOk feature_table then
      ⟨some feature_row, some feature_table, [Event.toCsv feature_table]⟩
    else
      ⟨some feature_row, none, [Event.toCsv feature_table, Event.printError]⟩
  else
    let feature_table := table_stem ++ ".csv"
    if env.rowToTableOk feature_table then
      ⟨some feature_row, some feature_table, [Event.rowToTable feature_table]⟩
    else
      ⟨some feature_row, none, [Event.rowToTable feature_table, Event.printError]⟩

/-- The four pipeline stages of `extractors.openSMILE`, with the data
each stage receives. -/
inductive Stage where
  | fetchConvert (newFile : String)
  | runCmd (arg1 argn : String)
  | reshape (arffFile : String)
  | persist (table : String)
  deriving DecidableEq

/-- Environment of `extractors.openSMILE`: the external
`mhealthx.data_io.get_convert_audio` (returns the row and the converted
file) and `arff_to_csv` (returns the row data parsed from the arff
file). -/
structure ExtractorsEnv where
  get_convert_audio : RowArg → (RowArg × String)
  arff_to_csv : String → Row

/-- The labelled entries of the row returned by `get_convert_audio` (a
pandas Series), as concatenated at extractors.py line 147. -/
def rowEntries : RowArg → Row
  | RowArg.series r => r
  | RowArg.notSeries => []

/-- extractors.py lines 13-153, `openSMILE`: fetch/convert the audio,
run SMILExtract, reshape the arff output, and persist the feature row
when `feature_table` is non-empty.  As in `run_openSMILE`,
`run_command` is modelled from the spec as echoing back the `argn` built
at the call site (`new_file + '.csv'`). -/
def extractors_openSMILE (env : ExtractorsEnv) (row : RowArg)
    (_command _flag1 _flags _args _flagn _closing : String)
    (feature_table : String) : Row × List Stage :=
  let fetched := env.get_convert_audio row
  let row2 := fetched.1
  let new_file := fetched.2
  let argn := new_file ++ ".csv"
  let row_data := env.arff_to_csv argn
  let feature_row := rowEntries row2 ++ row_data
  let t0 := [Stage.fetchConvert new_file, Stage.runCmd new_file argn, Stage.reshape argn]
  if feature_table.isEmpty then
    (feature_row, t0)
  else
    (feature_row, t0 ++ [Stage.persist feature_table])

/-! ## synapse_io.py -/

/-- A pandas DataFrame with cells of type `α`: the ordered list of
columns (name and row-aligned values) and the row index labels. -/
structure DataFrame (α : Type) where
  cols : List (String × List α)
  index : List Nat
  deriving DecidableEq

/-- `df.shape[0]`: the number of rows. -/
def DataFrame.shape0 {α : Type} (df : DataFrame α) : Nat :=
  df.index.length

/-- `table_data[column_name]`: `none` models the `KeyError` raised when
the column is absent. -/
def DataFrame.getColumn {α : Type} (df : DataFrame α) (name : String) :
    Option (List α) :=
  (df.cols.find? (fun c => c.1 = name)).map (fun c => c.2)

/-- `del table_data[remove_column]` (synapse_io.py line 167): removes
the named column; `none` models the `KeyError` raised when the column is
absent. -/
def delColumn {α : Type} (df : DataFrame α) (name : String) :
    Option (DataFrame α) :=
  if df.cols.any (fun c => c.1 = name) then
    some { df with cols := df.cols.filter (fun c => c.1 ≠ name) }
  else
    none

/-- synapse_io.py lines 165-167: `for remove_column in remove_columns:
del table_data[remove_column]`. -/
def removeColumnsLoop {α : Type} (df : DataFrame α) :
    List String → Option (DataFrame α)
  | [] => some df
  | name :: rest =>
      match delColumn df name with
      | none => none
      | some df2 => removeColumnsLoop df2 rest

/-- Environment of `copy_synapse_table`: `syn.tableQuery(...).asDataFrame()`
for a given Synapse table ID. -/
structure CopyEnv where
  tableQuery : String → DataFrame Int

/-- What `copy_synapse_table` returns, together with the table data
pushed to the target project by `syn.store(Table(schema, table_data))`. -/
structure CopyResult where
  table_data : DataFrame Int
  table_name : String
  synapse_project_id : String
  stored : DataFrame Int
  deriving DecidableEq

/-- synapse_io.py lines 107-176, `copy_synapse_table`: download the
source table, delete the named columns, renumber the index with
`table_data.index = range(table_data.shape[0])`, store the result in
the target project and return it.  `none` models the `KeyError` of a
missing `remove_columns` entry. -/
def copy_synapse_table (env : CopyEnv)
    (synapse_table_id synapse_project_id table_name : String)
    (remove_columns : List String) : Option CopyResult :=
  let table_data := env.tableQuery synapse_table_id
  match removeColumnsLoop table_data remove_columns with
  | none => none
  | some td =>
      let td2 := { td with index := List.range td.shape0 }
      some ⟨td2, table_name, synapse_project_id, td2⟩

/-- A cell of the table read by `read_synapse_table_files`: `np.isnan`
distinguishes a NaN cell (no attached file) from a file-handle value. -/
inductive Cell where
  | nan
  | val (v : Int)
  deriving DecidableEq

/-- Environment of `read_synapse_table_files`: the queried table and
`syn.downloadTableFile(schema, rowId, versionNumber=0, column,
downloadLocation)`; `some p` is a truthy fileinfo with path `p`, `none`
a falsy fileinfo. -/
structure ReadEnv where
  tableQuery : String → DataFrame Cell
  downloadTableFile : Nat → String → Option String

/-- synapse_io.py lines 84-100, the loop body over one row of one
column, given the cell: a NaN cell appends `None` (no download);
otherwise the file is downloaded and the path appended, or `''` when
the fileinfo is falsy. -/
def cellEntry (env : ReadEnv) (column_name : String) (irow : Nat) :
    Cell → Option String
  | Cell.nan => none
  | Cell.val _ =>
      match env.downloadTableFile irow column_name with
      | some p => some p
      | none => some ""

/-- synapse_io.py lines 83-100: `for irow in range(download_limit)` over
one column.  Returns the `files_per_column` list and the download events
`(irow, column_name)` performed; `none` models the error raised by
`column_data[irow]` when `irow` is beyond the table. -/
def filesLoop (env : ReadEnv) (column_name : String) (column_data : List Cell) :
    List Nat → Option (List (Option String) × List (Nat × String))
  | [] => some ([], [])
  | irow :: rest =>
      match column_data.get? irow with
      | none => none
      | some Cell.nan =>
          match filesLoop env column_name column_data rest with
          | none => none
          | some (es, ds) => some (none :: es, ds)
      | some (Cell.val v) =>
          let entry := cellEntry env column_name irow (Cell.val v)
          match filesLoop env column_name column_data rest with
          | none => none
          | some (es, ds) => some (entry :: es, (irow, column_name) :: ds)

/-- synapse_io.py lines 79-102: `for column_name in column_names`,
collecting `downloaded_files` and the download events. -/
def columnsLoop (env : ReadEnv) (table_data : DataFrame Cell) (limit : Nat) :
    List String → Option (List (List (Option String)) × List (Nat × String))
  | [] => some ([], [])
  | cn :: rest =>
      match table_data.getColumn cn with
      | none => none
      | some cd =>
          match filesLoop env cn cd (List.range limit) with
          | none => none
          | some (es, ds) =>
              match columnsLoop env table_data limit rest with
              | none => none
              | some (ess, ds2) => some (es :: ess, ds ++ ds2)

/-- The number of rows processed per column (synapse_io.py lines 75-76):
the int `download_limit` itself, or the table's row count when
`download_limit` is not an int. -/
def readLimit (env : ReadEnv) (synapse_table_id : String)
    (download_limit : Option Int) : Nat :=
  match download_limit with
  | some d => d.toNat
  | none => (env.tableQuery synapse_table_id).shape0

/-- What `read_synapse_table_files` returns, together with the download
events performed. -/
structure ReadResult where
  table_data : DataFrame Cell
  downloaded_files : List (List (Option String))
  downloads : List (Nat × String)
  deriving DecidableEq

/-- synapse_io.py lines 13-104, `read_synapse_table_files`.
`download_limit` is `some d` for an int argument and `none` otherwise
(`if type(download_limit) != int: download_limit = table_data.shape[0]`);
a negative int makes `range(download_limit)` empty, modelled by
`Int.toNat`.  `none` models an exception escaping the loops. -/
def read_synapse_table_files (env : ReadEnv) (synapse_table_id : String)
    (column_names : List String) (download_limit : Option Int) :
    Option ReadResult :=
  let table_data := env.tableQuery synapse_table_id
  if column_names.isEmpty then
    some ⟨table_data, [], []⟩
  else
    match columnsLoop env table_data
        (readLimit env synapse_table_id download_limit) column_names with
    | none => none
    | some (dfs, ds) => some ⟨table_data, dfs, ds⟩

/-- The entry `files_per_column` receives for row `i` of a column: the
loop body `cellEntry` applied to the cell found at position `i`
(`none` as a placeholder where the loop would instead raise). -/
def entryAt (env : ReadEnv) (cn : String) (cd : List Cell) (i : Nat) :
    Option String :=
  match cd.get? i with
  | some c => cellEntry env cn i c
  | none => none

/-- The inner list `read_synapse_table_files` builds for one column:
one entry per row index in `range limit`. -/
def columnEntries (env : ReadEnv) (limit : Nat) (td : DataFrame Cell)
    (cn : String) : List (Option String) :=
  match td.getColumn cn with
  | some cd => (List.range limit).map (entryAt env cn cd)
  | none => []

/-- An element of the `tables` argument of
`concatenate_tables_to_synapse_table`: a file path string, a pandas
DataFrame (modelled as its list of rows), or a value of any other
type. -/
inductive TableArg where
  | path (p : String)
  | df (rows : List (List Int))
  | other
  deriving DecidableEq

/-- Environment of `concatenate_tables_to_synapse_table`:
`pd.read_table(table_file, index_col=False)` as the list of rows of the
file's table. -/
structure ConcatEnv where
  read_table : String → List (List Int)

/-- The message of the IOError raised by the `tables[0]` type check
(synapse_io.py lines 405-407). -/
def typeCheckMsg : String :=
  "tables should contain file path strings or pandas DataFrames."

/-- The message of the IOError raised when `start_row` exceeds a
table's row count (synapse_io.py line 418). -/
def startRowMsg : String := "The start_row is bigger than the table!"

/-- The table read from one file of the `tables` list, after the
optional transpose (synapse_io.py lines 413-415). -/
def readOne (env : ConcatEnv) (transpose_tables : Bool) (p : String) :
    List (List Int) :=
  let df := env.read_table p
  if transpose_tables then df.transpose else df

/-- synapse_io.py lines 410-423: `for table_file in tables` in the
file-path branch.  Each element is read with `pd.read_table` (an element
that is not a path makes that call raise, modelled by an error); tables
after the first are sliced `df[start_row:df.shape[0]+1]` when
`start_row > 0`, raising when `start_row` exceeds the row count. -/
def readLoop (env : ConcatEnv) (transpose_tables : Bool) (start_row : Nat) :
    List TableArg → Bool → Except String (List (List (List Int)))
  | [], _ => Except.ok []
  | tbl :: rest, first_table =>
      match tbl with
      | TableArg.path p =>
          let df := readOne env transpose_tables p
          if start_row > 0 ∧ ¬ first_table then
            if start_row > df.length then
              Except.error startRowMsg
            else
              (readLoop env transpose_tables start_row rest false).map
                (fun dfs => df.drop start_row :: dfs)
          else
            (readLoop env transpose_tables start_row rest false).map
              (fun dfs => df :: dfs)
      | _ => Except.error "read_table: table is not a file path"

/-- The rows of a `tables` element that is a DataFrame. -/
def asDf : TableArg → Option (List (List Int))
  | TableArg.df rows => some rows
  | _ => none

/-- The row lists of the `tables` elements, defined when every element
is a DataFrame. -/
def asDfAll : List TableArg → Option (List (List (List Int)))
  | [] => some []
  | tbl :: rest =>
      match asDf tbl, asDfAll rest with
      | some d, some ds => some (d :: ds)
      | _, _ => none

/-- `pd.concat(tables)` in the DataFrame branch: succeeds only when
every element is a DataFrame, concatenating their rows; otherwise
`pd.concat` raises a TypeError. -/
def concatDfs (tables : List TableArg) : Except String (List (List Int)) :=
  match asDfAll tables with
  | some dfss => Except.ok dfss.flatten
  | none => Except.error "cannot concatenate object that is not a DataFrame"

/-- synapse_io.py lines 327-436, `concatenate_tables_to_synapse_table`,
up to the returned `table_data` (the schema creation and `syn.store`
consume `table_data` unchanged).  `tables[0]` on an empty list raises an
IndexError; a first element that is neither a str nor a DataFrame raises
the IOError of `typeCheckMsg`. -/
def concatenate_tables_to_synapse_table (env : ConcatEnv)
    (tables : List TableArg) (transpose_tables : Bool) (start_row : Nat) :
    Except String (List (List Int)) :=
  match tables with
  | [] => Except.error "IndexError: tables is empty"
  | t0 :: _ =>
      match t0 with
      | TableArg.path _ =>
          match readLoop env transpose_tables start_row tables true with
          | Except.error e => Except.error e
          | Except.ok dfs => Except.ok dfs.flatten
      | TableArg.df _ => concatDfs tables
      | TableArg.other => Except.error typeCheckMsg

/-! ## Helper predicates and concrete test data -/

/-- Is this event an invocation of the external command? -/
def isRunCommandEvent : Event → Bool
  | Event.runCommand _ _ _ _ _ _ _ _ => true
  | _ => false

/-- Is this event a `pd.read_csv`? -/
def isReadCsvEvent : Event → Bool
  | Event.readCsv _ _ => true
  | _ => false

/-- Is this event a write (either `to_csv` or `row_to_table`)? -/
def isWriteEvent : Event → Bool
  | Event.toCsv _ => true
  | Event.rowToTable _ => true
  | _ => false

/-- Is this stage the persist stage? -/
def isPersistStage : Stage → Bool
  | Stage.persist _ => true
  | _ => false

/-- Test environment: the audio file exists but reading the openSMILE
output CSV raises an IOError. -/
def testEnvReadFail : OpenSmileEnv :=
  { isfile := fun _ => true
    readCsv := fun _ => none
    toCsvOk := fun _ => true
    rowToTableOk := fun _ => true }

/-- Test environment: the audio file exists, the CSV reads back one
feature value, and all writes succeed. -/
def testEnvOk : OpenSmileEnv :=
  { isfile := fun _ => true
    readCsv := fun _ => some [("feat", 7)]
    toCsvOk := fun _ => true
    rowToTableOk := fun _ => true }

/-- Test environment: the audio file does not exist. -/
def testEnvNoFile : OpenSmileEnv :=
  { isfile := fun _ => false
    readCsv := fun _ => none
    toCsvOk := fun _ => true
    rowToTableOk := fun _ => true }

/-- A fixed pyGait output used by concrete tests. -/
def testGaitOut : GaitOut :=
  ⟨10, 2, 3, 4, 5, [1, 2], 6, 7, [3], [4], 8, 9, 11, 12, 13, 14⟩

/-- Test environment for `run_pyGait` with successful writes. -/
def testPyGaitEnv : PyGaitEnv :=
  { heel_strikes := fun _ _ _ _ _ _ _ => ([1, 2, 3], [0, 1, 2])
    gait := fun _ _ _ _ => testGaitOut
    root_mean_square := fun _ => 5
    toCsvOk := fun _ => true
    rowToTableOk := fun _ => true }

/-- Test environment for `run_pyGait` whose writes all fail. -/
def testPyGaitEnvWriteFail : PyGaitEnv :=
  { heel_strikes := fun _ _ _ _ _ _ _ => ([1, 2, 3], [0, 1, 2])
    gait := fun _ _ _ _ => testGaitOut
    root_mean_square := fun _ => 5
    toCsvOk := fun _ => false
    rowToTableOk := fun _ => false }

/-- Test environment for `extractors.openSMILE`. -/
def testExtractorsEnv : ExtractorsEnv :=
  { get_convert_audio := fun row => (row, "audio.wav")
    arff_to_csv := fun _ => [("f1", 7)] }

/-- Test environment for `copy_synapse_table`: a two-column,
two-row table. -/
def testCopyEnv : CopyEnv :=
  { tableQuery := fun _ => ⟨[("a", [1, 2]), ("b", [3, 4])], [5, 9]⟩ }

/-- The result `copy_synapse_table` produces on `testCopyEnv` when
column `b` is removed. -/
def testCopyResult : CopyResult :=
  ⟨⟨[("a", [1, 2])], [0, 1]⟩, "nm", "proj", ⟨[("a", [1, 2])], [0, 1]⟩⟩

/-- Test environment for `read_synapse_table_files`: one file column
whose second cell is NaN, and one download that yields a falsy
fileinfo. -/
def testReadEnv : ReadEnv :=
  { tableQuery := fun _ => ⟨[("files", [Cell.val 11, Cell.nan, Cell.val 13])], [0, 1, 2]⟩
    downloadTableFile := fun irow _ => if irow = 0 then some "/tmp/f0" else none }

/-- Test environment for `concatenate_tables_to_synapse_table`:
two table files of two rows each. -/
def testConcatEnv : ConcatEnv :=
  { read_table := fun p => if p = "t1.csv" then [[1, 2], [3, 4]] else [[5, 6], [7, 8]] }

/-! ## General lemmas -/

theorem basename_append_csv (s : String) :
    basename (s ++ ".csv") = basename s ++ ".csv" := by
  unfold basename
  have h1 : (s ++ ".csv").data = s.data ++ ['.', 'c', 's', 'v'] := by
    simp [String.data_append]
  rw [h1, List.reverse_append]
  have h2 : List.reverse ['.', 'c', 's', 'v'] = ['v', 's', 'c', '.'] := rfl
  rw [h2]
  have h3 : List.takeWhile (fun c => c ≠ '/') (['v', 's', 'c', '.'] ++ s.data.reverse)
      = ['v', 's', 'c', '.'] ++ List.takeWhile (fun c => c ≠ '/') s.data.reverse := rfl
  rw [h3, List.reverse_append]
  rfl

/-! ## Claims -/

/-- C8: if `audio_file` does not name an existing file, `run_openSMILE`
returns `(None, None)` and performs no effect at all: no external
command, no CSV read, no table write. -/
theorem C8_no_file_returns_none (env : OpenSmileEnv)
    (audio_file command flag1 flags args flagn closing : String)
    (row : RowArg) (table_stem : String) (save_rows : Bool)
    (h : env.isfile audio_file = false) :
    run_openSMILE env audio_file command flag1 flags args flagn closing
        row table_stem save_rows = ⟨none, none, []⟩ := by
  simp [run_openSMILE, h]

theorem C8_no_file_returns_none_witness :
    testEnvNoFile.isfile "a.wav" = false ∧
    run_openSMILE testEnvNoFile "a.wav" "SMILExtract" "-I" "-C" "cfg.conf"
        "-csvoutput" "-nologfile 1" RowArg.notSeries "stem" true
      = ⟨none, none, []⟩ :=
  ⟨rfl, C8_no_file_returns_none testEnvNoFile "a.wav" "SMILExtract" "-I" "-C"
    "cfg.conf" "-csvoutput" "-nologfile 1" RowArg.notSeries "stem" true rfl⟩

/-- C5: `run_pyGait` computes no gait metrics itself: for every choice
of the external `heel_strikes`, `gait` and `root_mean_square` routines,
the feature data it assembles is exactly the fourteen listed fields,
each taken unmodified from those routines' outputs (the heel strikes
being fed to `gait`, and `RMS` being `root_mean_square` of the data). -/
theorem C5_pygait_fields_from_externals (env : PyGaitEnv) (data t : List Int)
    (sample_rate duration stride_fraction threshold1 threshold2 order cutoff : Int)
    (distance : Option Int) (row : RowArg)
    (file_path table_stem : String) (save_rows : Bool) :
    (run_pyGait env data t sample_rate duration stride_fraction threshold1
        threshold2 order cutoff distance row file_path table_stem save_rows).feature_row
      = some (buildFeatureRow row (pyGaitRowData
          (env.gait (env.heel_strikes data sample_rate threshold2 order cutoff false t).1
            data duration distance)
          (env.root_mean_square data))) ∧
    (pyGaitRowData
        (env.gait (env.heel_strikes data sample_rate threshold2 order cutoff false t).1
          data duration distance)
        (env.root_mean_square data)).map Prod.fst
      = ["number_of_steps", "cadence", "velocity", "avg_step_length",
         "avg_stride_length", "avg_step_duration", "sd_step_durations",
         "avg_number_of_strides", "avg_stride_duration", "sd_stride_durations",
         "step_regularity", "stride_regularity", "symmetry", "RMS"] := by
  constructor
  · unfold run_pyGait
    cases h1 : env.toCsvOk (table_stem ++ "_" ++ basename file_path ++ ".csv") <;>
      cases h2 : env.rowToTableOk (table_stem ++ ".csv") <;>
        cases save_rows <;> simp [h1, h2]
  · rfl

/-- C1: on every I/O failure inside `run_openSMILE` (reading the
openSMILE output CSV, or writing the feature row) and inside
`run_pyGait` (writing the feature row), the function performs no retry
and no recovery other than printing the error: the trace shows exactly
one attempt followed by a single error print, the failed output is
`None`, and a read failure leaves both `feature_row` and
`feature_table` as `None`. -/
theorem C1_failures_print_once_and_return_none
    (envO : OpenSmileEnv) (envP : PyGaitEnv)
    (audio_file command flag1 flags args flagn closing : String)
    (row : RowArg) (table_stem : String)
    (data t : List Int)
    (sample_rate duration stride_fraction threshold1 threshold2 order cutoff : Int)
    (distance : Option Int) (file_path : String)
    (hfile : envO.isfile audio_file = true) :
    (envO.readCsv (audio_file ++ ".csv") = none → ∀ save_rows : Bool,
      run_openSMILE envO audio_file command flag1 flags args flagn closing
          row table_stem save_rows
        = ⟨none, none,
           [Event.runCommand command flag1 audio_file flags args flagn
              (audio_file ++ ".csv") closing,
            Event.readCsv (audio_file ++ ".csv") ";", Event.printError]⟩) ∧
    (∀ rd, envO.readCsv (audio_file ++ ".csv") = some rd →
      envO.toCsvOk (table_stem ++ "_" ++ basename (audio_file ++ ".csv")) = false →
      run_openSMILE envO audio_file command flag1 flags args flagn closing
          row table_stem true
        = ⟨some (buildFeatureRow row rd), none,
           [Event.runCommand command flag1 audio_file flags args flagn
              (audio_file ++ ".csv") closing,
            Event.readCsv (audio_file ++ ".csv") ";",
            Event.toCsv (table_stem ++ "_" ++ basename (audio_file ++ ".csv")),
            Event.printError]⟩) ∧
    (∀ rd, envO.readCsv (audio_file ++ ".csv") = some rd →
      envO.rowToTableOk (table_stem ++ ".csv") = false →
      run_openSMILE envO audio_file command flag1 flags args flagn closing
          row table_stem false
        = ⟨some (buildFeatureRow row rd), none,
           [Event.runCommand command flag1 audio_file flags args flagn
              (audio_file ++ ".csv") closing,
            Event.readCsv (audio_file ++ ".csv") ";",
            Event.rowToTable (table_stem ++ ".csv"),
            Event.printError]⟩) ∧
    (envP.toCsvOk (table_stem ++ "_" ++ basename file_path ++ ".csv") = false →
      run_pyGait envP data t sample_rate duration stride_fraction threshold1
          threshold2 order cutoff distance row file_path table_stem true
        = ⟨some (buildFeatureRow row (pyGaitRowData
             (envP.gait (envP.heel_strikes data sample_rate threshold2 order
                cutoff false t).1 data duration distance)
             (envP.root_mean_square data))), none,
           [Event.toCsv (table_stem ++ "_" ++ basename file_path ++ ".csv"),
            Event.printError]⟩) ∧
    (envP.rowToTableOk (table_stem ++ ".csv") = false →
      run_pyGait envP data t sample_rate duration stride_fraction threshold1
          threshold2 order cutoff distance row file_path table_stem false
        = ⟨some (buildFeatureRow row (pyGaitRowData
             (envP.gait (envP.heel_strikes data sample_rate threshold2 order
                cutoff false t).1 data duration distance)
             (envP.root_mean_square data))), none,
           [Event.rowToTable (table_stem ++ ".csv"), Event.printError]⟩) := by
  refine ⟨?_, ?_, ?_, ?_, ?_⟩
  · intro hread save_rows
    simp [run_openSMILE, hfile, hread]
  · intro rd hread hw
    simp [run_openSMILE, hfile, hread, hw]
  · intro rd hread hw
    simp [run_openSMILE, hfile, hread, hw]
  · intro hw
    simp [run_pyGait, hw]
  · intro hw
    simp [run_pyGait, hw]

theorem C1_failures_witness :
    run_openSMILE testEnvReadFail "a.wav" "SMILExtract" "-I" "-C" "cfg.conf"
        "-csvoutput" "-nologfile 1" RowArg.notSeries "stem" true
      = ⟨none, none,
         [Event.runCommand "SMILExtract" "-I" "a.wav" "-C" "cfg.conf"
            "-csvoutput" "a.wav.csv" "-nologfile 1",
          Event.readCsv "a.wav.csv" ";", Event.printError]⟩ ∧
    run_pyGait testPyGaitEnvWriteFail [1] [0] 100 10 1 1 1 4 5 none
        RowArg.notSeries "f.json" "stem" true
      = ⟨some (pyGaitRowData testGaitOut 5), none,
         [Event.toCsv "stem_f.json.csv", Event.printError]⟩ := by
  constructor
  · exact (C1_failures_print_once_and_return_none testEnvReadFail
      testPyGaitEnvWriteFail "a.wav" "SMILExtract" "-I" "-C" "cfg.conf"
      "-csvoutput" "-nologfile 1" RowArg.notSeries "stem" [1] [0] 100 10 1 1 1
      4 5 none "f.json" rfl).1 rfl true
  · exact (C1_failures_print_once_and_return_none testEnvReadFail
      testPyGaitEnvWriteFail "a.wav" "SMILExtract" "-I" "-C" "cfg.conf"
      "-csvoutput" "-nologfile 1" RowArg.notSeries "stem" [1] [0] 100 10 1 1 1
      4 5 none "f.json" rfl).2.2.2.1 rfl

/-- C2: when the feature data was obtained and `row` is a non-empty
pandas Series, the returned `feature_row` is exactly the original row's
entries, unchanged and in order, followed by the extracted feature
values; when `row` is empty or not a Series, `feature_row` is the
extracted feature data alone.  (The embedding is pure, so the input
`row` itself is never modified.) -/
theorem C2_original_row_prepended
    (envO : OpenSmileEnv) (envP : PyGaitEnv)
    (audio_file command flag1 flags args flagn closing : String)
    (table_stem : String)
    (data t : List Int)
    (sample_rate duration stride_fraction threshold1 threshold2 order cutoff : Int)
    (distance : Option Int) (file_path : String)
    (hfile : envO.isfile audio_file = true) :
    (∀ rd, envO.readCsv (audio_file ++ ".csv") = some rd → ∀ save_rows : Bool,
      (∀ r, r ≠ [] →
        (run_openSMILE envO audio_file command flag1 flags args flagn closing
            (RowArg.series r) table_stem save_rows).feature_row = some (r ++ rd)) ∧
      (run_openSMILE envO audio_file command flag1 flags args flagn closing
          RowArg.notSeries table_stem save_rows).feature_row = some rd ∧
      (run_openSMILE envO audio_file command flag1 flags args flagn closing
          (RowArg.series []) table_stem save_rows).feature_row = some rd) ∧
    (∀ save_rows : Bool,
      (∀ r, r ≠ [] →
        (run_pyGait envP data t sample_rate duration stride_fraction threshold1
            threshold2 order cutoff distance (RowArg.series r) file_path
            table_stem save_rows).feature_row
          = some (r ++ pyGaitRowData
              (envP.gait (envP.heel_strikes data sample_rate threshold2 order
                 cutoff false t).1 data duration distance)
              (envP.root_mean_square data))) ∧
      (run_pyGait envP data t sample_rate duration stride_fraction threshold1
          threshold2 order cutoff distance RowArg.notSeries file_path
          table_stem save_rows).feature_row
        = some (pyGaitRowData
            (envP.gait (envP.heel_strikes data sample_rate threshold2 order
               cutoff false t).1 data duration distance)
            (envP.root_mean_square data)) ∧
      (run_pyGait envP data t sample_rate duration stride_fraction threshold1
          threshold2 order cutoff distance (RowArg.series []) file_path
          table_stem save_rows).feature_row
        = some (pyGaitRowData
            (envP.gait (envP.heel_strikes data sample_rate threshold2 order
               cutoff false t).1 data duration distance)
            (envP.root_mean_square data))) := by
  constructor
  · intro rd hread save_rows
    refine ⟨?_, ?_, ?_⟩
    · intro r hr
      obtain ⟨a, l, rfl⟩ := List.exists_cons_of_ne_nil hr
      cases save_rows <;>
        simp [run_openSMILE, hfile, hread, buildFeatureRow] <;> split <;> simp
    · cases save_rows <;>
        simp [run_openSMILE, hfile, hread, buildFeatureRow] <;> split <;> simp
    · cases save_rows <;>
        simp [run_openSMILE, hfile, hread, buildFeatureRow] <;> split <;> simp
  · intro save_rows
    refine ⟨?_, ?_, ?_⟩
    · intro r hr
      obtain ⟨a, l, rfl⟩ := List.exists_cons_of_ne_nil hr
      cases save_rows <;>
        simp [run_pyGait, buildFeatureRow] <;> split <;> simp
    · cases save_rows <;>
        simp [run_pyGait, buildFeatureRow] <;> split <;> simp
    · cases save_rows <;>
        simp [run_pyGait, buildFeatureRow] <;> split <;> simp

theorem C2_original_row_prepended_witness :
    (run_openSMILE testEnvOk "a.wav" "SMILExtract" "-I" "-C" "cfg.conf"
        "-csvoutput" "-nologfile 1" (RowArg.series [("meta", 3)]) "stem"
        true).feature_row
      = some ([("meta", 3)] ++ [("feat", 7)]) := by
  exact ((C2_original_row_prepended testEnvOk testPyGaitEnv "a.wav"
    "SMILExtract" "-I" "-C" "cfg.conf" "-csvoutput" "-nologfile 1" "stem"
    [1] [0] 100 10 1 1 1 4 5 none "f.json" rfl).1 [("feat", 7)] rfl true).1
    [("meta", 3)] (by simp)

/-- C3: on every successful call, with `save_rows` true the feature row
goes to its own per-row file named `table_stem`, `'_'`, and the basename
of the input-derived file name, and that path is returned; with
`save_rows` false the feature row is appended to the shared table
`table_stem + '.csv'` via `row_to_table`, and that path is returned. -/
theorem C3_feature_table_naming
    (envO : OpenSmileEnv) (envP : PyGaitEnv)
    (audio_file command flag1 flags args flagn closing : String)
    (row : RowArg) (table_stem : String)
    (data t : List Int)
    (sample_rate duration stride_fraction threshold1 threshold2 order cutoff : Int)
    (distance : Option Int) (file_path : String)
    (hfile : envO.isfile audio_file = true) :
    (∀ rd, envO.readCsv (audio_file ++ ".csv") = some rd →
      (envO.toCsvOk (table_stem ++ "_" ++ basename (audio_file ++ ".csv")) = true →
        (run_openSMILE envO audio_file command flag1 flags args flagn closing
            row table_stem true).feature_table
          = some (table_stem ++ "_" ++ basename (audio_file ++ ".csv")) ∧
        (run_openSMILE envO audio_file command flag1 flags args flagn closing
            row table_stem true).trace
          = [Event.runCommand command flag1 audio_file flags args flagn
               (audio_file ++ ".csv") closing,
             Event.readCsv (audio_file ++ ".csv") ";",
             Event.toCsv (table_stem ++ "_" ++ basename (audio_file ++ ".csv"))]) ∧
      (envO.rowToTableOk (table_stem ++ ".csv") = true →
        (run_openSMILE envO audio_file command flag1 flags args flagn closing
            row table_stem false).feature_table = some (table_stem ++ ".csv") ∧
        (run_openSMILE envO audio_file command flag1 flags args flagn closing
            row table_stem false).trace
          = [Event.runCommand command flag1 audio_file flags args flagn
               (audio_file ++ ".csv") closing,
             Event.readCsv (audio_file ++ ".csv") ";",
             Event.rowToTable (table_stem ++ ".csv")])) ∧
    (envP.toCsvOk (table_stem ++ "_" ++ basename file_path ++ ".csv") = true →
      (run_pyGait envP data t sample_rate duration stride_fraction threshold1
          threshold2 order cutoff distance row file_path table_stem
          true).feature_table
        = some (table_stem ++ "_" ++ basename (file_path ++ ".csv")) ∧
      (run_pyGait envP data t sample_rate duration stride_fraction threshold1
          threshold2 order cutoff distance row file_path table_stem true).trace
        = [Event.toCsv (table_stem ++ "_" ++ basename (file_path ++ ".csv"))]) ∧
    (envP.rowToTableOk (table_stem ++ ".csv") = true →
      (run_pyGait envP data t sample_rate duration stride_fraction threshold1
          threshold2 order cutoff distance row file_path table_stem
          false).feature_table = some (table_stem ++ ".csv") ∧
      (run_pyGait envP data t sample_rate duration stride_fraction threshold1
          threshold2 order cutoff distance row file_path table_stem false).trace
        = [Event.rowToTable (table_stem ++ ".csv")]) := by
  refine ⟨?_, ?_, ?_⟩
  · intro rd hread
    constructor
    · intro hw
      simp [run_openSMILE, hfile, hread, hw]
    · intro hw
      simp [run_openSMILE, hfile, hread, hw]
  · intro hw
    have hb : table_stem ++ "_" ++ basename (file_path ++ ".csv")
        = table_stem ++ "_" ++ basename file_path ++ ".csv" := by
      simp [basename_append_csv, String.append_assoc]
    rw [hb]
    simp only [run_pyGait, String.append_assoc] at hw ⊢
    simp [hw]
  · intro hw
    simp [run_pyGait, hw]

theorem C3_feature_table_naming_witness :
    (run_openSMILE testEnvOk "d/a.wav" "SMILExtract" "-I" "-C" "cfg.conf"
        "-csvoutput" "-nologfile 1" RowArg.notSeries "stem" true).feature_table
      = some ("stem" ++ "_" ++ basename ("d/a.wav" ++ ".csv")) ∧
    (run_pyGait testPyGaitEnv [1] [0] 100 10 1 1 1 4 5 none RowArg.notSeries
        "d/f.json" "stem" false).feature_table = some ("stem" ++ ".csv") := by
  constructor
  · exact (((C3_feature_table_naming testEnvOk testPyGaitEnv "d/a.wav"
      "SMILExtract" "-I" "-C" "cfg.conf" "-csvoutput" "-nologfile 1"
      RowArg.notSeries "stem" [1] [0] 100 10 1 1 1 4 5 none "d/f.json"
      rfl).1 [("feat", 7)] rfl).1 rfl).1
  · exact ((C3_feature_table_naming testEnvOk testPyGaitEnv "d/a.wav"
      "SMILExtract" "-I" "-C" "cfg.conf" "-csvoutput" "-nologfile 1"
      RowArg.notSeries "stem" [1] [0] 100 10 1 1 1 4 5 none "d/f.json"
      rfl).2.2 rfl).1

/-- C6: for every existing `audio_file`, `run_openSMILE` invokes the
external feature-extraction command exactly once, with the audio file
as the argument after `flag1` and `audio_file + '.csv'` as the final
output argument, and performs exactly one `pd.read_csv` of that same
file with separator `';'`. -/
theorem C6_command_once_then_csv_read
    (envO : OpenSmileEnv)
    (audio_file command flag1 flags args flagn closing : String)
    (row : RowArg) (table_stem : String) (save_rows : Bool)
    (hfile : envO.isfile audio_file = true) :
    (run_openSMILE envO audio_file command flag1 flags args flagn closing
        row table_stem save_rows).trace.filter isRunCommandEvent
      = [Event.runCommand command flag1 audio_file flags args flagn
           (audio_file ++ ".csv") closing] ∧
    (run_openSMILE envO audio_file command flag1 flags args flagn closing
        row table_stem save_rows).trace.filter isReadCsvEvent
      = [Event.readCsv (audio_file ++ ".csv") ";"] := by
  unfold run_openSMILE
  rw [hfile]
  cases hread : envO.readCsv (audio_file ++ ".csv") with
  | none => simp [hread, isRunCommandEvent, isReadCsvEvent]
  | some rd =>
    cases save_rows with
    | true =>
      cases hw : envO.toCsvOk (table_stem ++ "_" ++ basename (audio_file ++ ".csv")) <;>
        simp [hread, hw, isRunCommandEvent, isReadCsvEvent]
    | false =>
      cases hw : envO.rowToTableOk (table_stem ++ ".csv") <;>
        simp [hread, hw, isRunCommandEvent, isReadCsvEvent]

theorem C6_command_once_then_csv_read_witness :
    (run_openSMILE testEnvOk "a.wav" "SMILExtract" "-I" "-C" "cfg.conf"
        "-csvoutput" "-nologfile 1" RowArg.notSeries "stem"
        false).trace.filter isRunCommandEvent
      = [Event.runCommand "SMILExtract" "-I" "a.wav" "-C" "cfg.conf"
           "-csvoutput" "a.wav.csv" "-nologfile 1"] :=
  (C6_command_once_then_csv_read testEnvOk "a.wav" "SMILExtract" "-I" "-C"
    "cfg.conf" "-csvoutput" "-nologfile 1" RowArg.notSeries "stem" false rfl).1

/-- C4 counterexample: a call of `extractors.openSMILE` with an empty
`feature_table` performs only the first three stages — the persist
stage is skipped — so not every call performs the four stages. -/
theorem C4_counterexample_empty_table_skips_persist :
    (extractors_openSMILE testExtractorsEnv (RowArg.series [("m", 1)])
        "SMILExtract" "-I" "-C" "cfg.conf" "-O" "-nologfile 1" "").2
      = [Stage.fetchConvert "audio.wav",
         Stage.runCmd "audio.wav" "audio.wav.csv",
         Stage.reshape "audio.wav.csv"] ∧
    ((extractors_openSMILE testExtractorsEnv (RowArg.series [("m", 1)])
        "SMILExtract" "-I" "-C" "cfg.conf" "-O" "-nologfile 1" "").2.filter
          isPersistStage) = [] := by
  decide

/-- C4 (amended): every call of the `extractors.openSMILE` pipeline
performs exactly one pass of the stages in the fixed order
fetch-and-convert, run the external command, reshape the output,
persist — the persist stage executed exactly when `feature_table` is
non-empty — with no loop or retry, and each stage consumes the previous
stage's output. -/
theorem C4_single_pass_in_order (env : ExtractorsEnv) (row : RowArg)
    (command flag1 flags args flagn closing feature_table : String)
    (h : feature_table ≠ "") :
    (extractors_openSMILE env row command flag1 flags args flagn closing
        feature_table).2
      = [Stage.fetchConvert (env.get_convert_audio row).2,
         Stage.runCmd (env.get_convert_audio row).2
           ((env.get_convert_audio row).2 ++ ".csv"),
         Stage.reshape ((env.get_convert_audio row).2 ++ ".csv"),
         Stage.persist feature_table] ∧
    (extractors_openSMILE env row command flag1 flags args flagn closing
        feature_table).1
      = rowEntries (env.get_convert_audio row).1
          ++ env.arff_to_csv ((env.get_convert_audio row).2 ++ ".csv") := by
  have he : feature_table.isEmpty = false := by
    cases hT : feature_table.isEmpty
    · rfl
    · exact absurd ((String.isEmpty_iff feature_table).mp hT) h
  simp [extractors_openSMILE, he]

theorem C4_single_pass_in_order_witness :
    ("out.csv" : String) ≠ "" ∧
    (extractors_openSMILE testExtractorsEnv (RowArg.series [("m", 1)])
        "SMILExtract" "-I" "-C" "cfg.conf" "-O" "-nologfile 1" "out.csv").2
      = [Stage.fetchConvert "audio.wav",
         Stage.runCmd "audio.wav" "audio.wav.csv",
         Stage.reshape "audio.wav.csv",
         Stage.persist "out.csv"] :=
  ⟨by decide,
   (C4_single_pass_in_order testExtractorsEnv (RowArg.series [("m", 1)])
     "SMILExtract" "-I" "-C" "cfg.conf" "-O" "-nologfile 1" "out.csv"
     (by decide)).1⟩

theorem removeColumnsLoop_spec {α : Type} (names : List String) :
    ∀ df df2 : DataFrame α, removeColumnsLoop df names = some df2 →
      df2.cols = df.cols.filter (fun c => names.all (fun m => c.1 ≠ m)) ∧
      df2.index = df.index := by
  induction names with
  | nil =>
    intro df df2 h
    simp only [removeColumnsLoop, Option.some.injEq] at h
    subst h
    simp
  | cons n rest ih =>
    intro df df2 h
    simp only [removeColumnsLoop] at h
    cases hd : delColumn df n with
    | none => rw [hd] at h; cases h
    | some dfn =>
      rw [hd] at h
      obtain ⟨h1, h2⟩ := ih dfn df2 h
      simp only [delColumn] at hd
      split at hd
      · simp only [Option.some.injEq] at hd
        subst hd
        refine ⟨?_, h2⟩
        rw [h1]
        simp [List.filter_filter, Bool.and_comm]
      · cases hd

/-- C7: `copy_synapse_table` returns table data equal to the source
table with exactly the columns named in `remove_columns` deleted —
every other column unchanged in content and order, the rows unchanged —
with the row index renumbered `0..n-1`, and the copy stored in the
target project holds the same data as the returned `table_data`. -/
theorem C7_copy_removes_exact_columns (env : CopyEnv)
    (synapse_table_id synapse_project_id table_name : String)
    (remove_columns : List String) (res : CopyResult)
    (h : copy_synapse_table env synapse_table_id synapse_project_id
        table_name remove_columns = some res) :
    res.table_data.cols
      = (env.tableQuery synapse_table_id).cols.filter
          (fun c => remove_columns.all (fun m => c.1 ≠ m)) ∧
    res.table_data.index
      = List.range (env.tableQuery synapse_table_id).index.length ∧
    res.stored = res.table_data ∧
    res.table_name = table_name ∧
    res.synapse_project_id = synapse_project_id := by
  cases hr : removeColumnsLoop (env.tableQuery synapse_table_id) remove_columns with
  | none =>
    have hn : copy_synapse_table env synapse_table_id synapse_project_id
        table_name remove_columns = none := by
      simp [copy_synapse_table, hr]
    rw [hn] at h
    cases h
  | some td =>
    have hc : copy_synapse_table env synapse_table_id synapse_project_id
        table_name remove_columns
        = some ⟨⟨td.cols, List.range td.shape0⟩, table_name,
                synapse_project_id, ⟨td.cols, List.range td.shape0⟩⟩ := by
      simp [copy_synapse_table, hr]
    rw [hc] at h
    simp only [Option.some.injEq] at h
    subst h
    obtain ⟨h1, h2⟩ := removeColumnsLoop_spec remove_columns _ td hr
    exact ⟨h1, by simp [DataFrame.shape0, h2], rfl, rfl, rfl⟩

theorem C7_copy_removes_exact_columns_witness :
    testCopyResult.table_data.cols
      = (testCopyEnv.tableQuery "syn1").cols.filter
          (fun c => (["b"] : List String).all (fun m => c.1 ≠ m)) ∧
    testCopyResult.table_data.index
      = List.range (testCopyEnv.tableQuery "syn1").index.length ∧
    testCopyResult.stored = testCopyResult.table_data ∧
    testCopyResult.table_name = "nm" ∧
    testCopyResult.synapse_project_id = "proj" :=
  C7_copy_removes_exact_columns testCopyEnv "syn1" "proj" "nm" ["b"]
    testCopyResult (by decide)

theorem filesLoop_spec (env : ReadEnv) (cn : String) (cd : List Cell) :
    ∀ (irows : List Nat) (es : List (Option String)) (ds : List (Nat × String)),
      filesLoop env cn cd irows = some (es, ds) →
        (∀ i ∈ irows, ∃ c, cd.get? i = some c) ∧
        es = irows.map (entryAt env cn cd) := by
  intro irows
  induction irows with
  | nil =>
    intro es ds h
    simp only [filesLoop, Option.some.injEq, Prod.mk.injEq] at h
    obtain ⟨he, _⟩ := h
    subst he
    simp
  | cons irow rest ih =>
    intro es ds h
    simp only [filesLoop] at h
    cases hc : cd.get? irow with
    | none => rw [hc] at h; cases h
    | some c =>
      rw [hc] at h
      cases c with
      | nan =>
        cases hrec : filesLoop env cn cd rest with
        | none => rw [hrec] at h; cases h
        | some p =>
          obtain ⟨es2, ds2⟩ := p
          rw [hrec] at h
          simp only [Option.some.injEq, Prod.mk.injEq] at h
          obtain ⟨he, _⟩ := h
          subst he
          obtain ⟨hcells, hes⟩ := ih es2 ds2 hrec
          refine ⟨?_, ?_⟩
          · intro i hi
            rcases List.mem_cons.mp hi with rfl | hi
            · exact ⟨Cell.nan, hc⟩
            · exact hcells i hi
          · simp only [List.map_cons, entryAt, hc, cellEntry, hes]
      | val v =>
        cases hrec : filesLoop env cn cd rest with
        | none => rw [hrec] at h; cases h
        | some p =>
          obtain ⟨es2, ds2⟩ := p
          rw [hrec] at h
          simp only [Option.some.injEq, Prod.mk.injEq] at h
          obtain ⟨he, _⟩ := h
          subst he
          obtain ⟨hcells, hes⟩ := ih es2 ds2 hrec
          refine ⟨?_, ?_⟩
          · intro i hi
            rcases List.mem_cons.mp hi with rfl | hi
            · exact ⟨Cell.val v, hc⟩
            · exact hcells i hi
          · simp only [List.map_cons, entryAt, hc, hes]

theorem columnsLoop_spec (env : ReadEnv) (td : DataFrame Cell) (limit : Nat) :
    ∀ (cns : List String) (ess : List (List (Option String)))
      (ds : List (Nat × String)),
      columnsLoop env td limit cns = some (ess, ds) →
        (∀ cn ∈ cns, ∃ cd, td.getColumn cn = some cd ∧
          ∀ i ∈ List.range limit, ∃ c, cd.get? i = some c) ∧
        ess = cns.map (columnEntries env limit td) := by
  intro cns
  induction cns with
  | nil =>
    intro ess ds h
    simp only [columnsLoop, Option.some.injEq, Prod.mk.injEq] at h
    obtain ⟨he, _⟩ := h
    subst he
    simp
  | cons cn rest ih =>
    intro ess ds h
    simp only [columnsLoop] at h
    cases hcol : td.getColumn cn with
    | none => simp only [hcol] at h; cases h
    | some cd =>
      simp only [hcol] at h
      cases hfl : filesLoop env cn cd (List.range limit) with
      | none => simp only [hfl] at h; cases h
      | some p =>
        obtain ⟨es, ds1⟩ := p
        simp only [hfl] at h
        cases hrec : columnsLoop env td limit rest with
        | none => simp only [hrec] at h; cases h
        | some q =>
          obtain ⟨ess2, ds2⟩ := q
          simp only [hrec] at h
          simp only [Option.some.injEq, Prod.mk.injEq] at h
          obtain ⟨he, _⟩ := h
          subst he
          obtain ⟨hcells, hes⟩ := filesLoop_spec env cn cd (List.range limit) es ds1 hfl
          obtain ⟨hrest, hess⟩ := ih ess2 ds2 hrec
          refine ⟨?_, ?_⟩
          · intro c hc
            rcases List.mem_cons.mp hc with rfl | hc
            · exact ⟨cd, hcol, hcells⟩
            · exact hrest c hc
          · simp only [List.map_cons, columnEntries, hcol, hes, hess]

/-- C9: with empty `column_names`, `read_synapse_table_files` returns an
empty `downloaded_files` and attempts no download; with non-empty
`column_names`, on every run that returns, `downloaded_files` has one
inner list per column name, each inner list has one entry per processed
row (`download_limit` rows for an int limit, the table's row count
otherwise), and each entry is the loop-body value `cellEntry` of that
row's cell: `None` for a NaN cell, the downloaded path for a truthy
fileinfo, `''` for a falsy one. -/
theorem C9_downloaded_files_shape (env : ReadEnv) (synapse_table_id : String)
    (cns : List String) (dl : Option Int) :
    (cns = [] → read_synapse_table_files env synapse_table_id cns dl
        = some ⟨env.tableQuery synapse_table_id, [], []⟩) ∧
    (∀ res, read_synapse_table_files env synapse_table_id cns dl = some res →
      res.table_data = env.tableQuery synapse_table_id ∧
      res.downloaded_files.length = cns.length ∧
      (∀ l ∈ res.downloaded_files, l.length = readLimit env synapse_table_id dl) ∧
      (∀ d : Int, dl = some d → 0 ≤ d →
        ∀ l ∈ res.downloaded_files, (l.length : Int) = d) ∧
      (dl = none →
        ∀ l ∈ res.downloaded_files,
          l.length = (env.tableQuery synapse_table_id).shape0) ∧
      (∀ cn ∈ cns, ∃ cd,
        (env.tableQuery synapse_table_id).getColumn cn = some cd ∧
        ∀ i ∈ List.range (readLimit env synapse_table_id dl),
          ∃ c, cd.get? i = some c) ∧
      res.downloaded_files
        = cns.map (columnEntries env (readLimit env synapse_table_id dl)
            (env.tableQuery synapse_table_id))) := by
  constructor
  · intro hc
    subst hc
    simp [read_synapse_table_files]
  · intro res h
    by_cases hc : cns = []
    · subst hc
      simp only [read_synapse_table_files, List.isEmpty_nil, if_true,
        Option.some.injEq] at h
      subst h
      simp
    · have hne : cns.isEmpty = false := by
        cases cns with
        | nil => exact absurd rfl hc
        | cons a l => rfl
      simp only [read_synapse_table_files, hne, Bool.false_eq_true, if_false] at h
      cases hcl : columnsLoop env (env.tableQuery synapse_table_id)
          (readLimit env synapse_table_id dl) cns with
      | none =>
        simp only [hcl] at h
        cases h
      | some p =>
        obtain ⟨ess, ds⟩ := p
        simp only [hcl] at h
        simp only [Option.some.injEq] at h
        subst h
        obtain ⟨hcols, hess⟩ := columnsLoop_spec env (env.tableQuery synapse_table_id)
          (readLimit env synapse_table_id dl) cns ess ds hcl
        have hlen : ∀ l ∈ ess, l.length = readLimit env synapse_table_id dl := by
          intro l hl
          rw [hess] at hl
          obtain ⟨cn, hcn, rfl⟩ := List.mem_map.mp hl
          obtain ⟨cd, hcd, _⟩ := hcols cn hcn
          simp [columnEntries, hcd]
        refine ⟨rfl, ?_, hlen, ?_, ?_, hcols, hess⟩
        · rw [hess]; simp
        · intro d hd hd0 l hl
          rw [hlen l hl]
          simp [readLimit, hd, Int.toNat_of_nonneg hd0]
        · intro hd l hl
          rw [hlen l hl]
          simp [readLimit, hd]

theorem C9_downloaded_files_shape_witness :
    read_synapse_table_files testReadEnv "syn1" ["files"] (some 3)
      = some ⟨testReadEnv.tableQuery "syn1",
              [[some "/tmp/f0", none, some ""]], [(0, "files"), (2, "files")]⟩ ∧
    ((⟨testReadEnv.tableQuery "syn1",
        [[some "/tmp/f0", none, some ""]],
        [(0, "files"), (2, "files")]⟩ : ReadResult)).downloaded_files
      = (["files"] : List String).map
          (columnEntries testReadEnv (readLimit testReadEnv "syn1" (some 3))
            (testReadEnv.tableQuery "syn1")) := by
  refine ⟨by decide, ?_⟩
  exact ((C9_downloaded_files_shape testReadEnv "syn1" ["files"] (some 3)).2
    ⟨testReadEnv.tableQuery "syn1", [[some "/tmp/f0", none, some ""]],
     [(0, "files"), (2, "files")]⟩ (by decide)).2.2.2.2.2.2

theorem asDfAll_map_df (dfss : List (List (List Int))) :
    asDfAll (dfss.map TableArg.df) = some dfss := by
  induction dfss with
  | nil => rfl
  | cons d rest ih => simp [asDfAll, asDf, ih]

theorem readLoop_rest_ok (env : ConcatEnv) (tt : Bool) (sr : Nat)
    (ps : List String)
    (h : ∀ p ∈ ps, sr ≤ (readOne env tt p).length) :
    readLoop env tt sr (ps.map TableArg.path) false
      = Except.ok (ps.map (fun p => (readOne env tt p).drop sr)) := by
  induction ps with
  | nil => rfl
  | cons p rest ih =>
    have hp : sr ≤ (readOne env tt p).length := h p (by simp)
    have hrest : ∀ q ∈ rest, sr ≤ (readOne env tt q).length :=
      fun q hq => h q (by simp [hq])
    by_cases hsr : sr > 0
    · simp only [List.map_cons, readLoop]
      rw [if_pos ⟨hsr, by simp⟩, if_neg (by omega)]
      rw [ih hrest]
      rfl
    · have hsr0 : sr = 0 := by omega
      subst hsr0
      simp only [List.map_cons, readLoop]
      rw [if_neg (by simp)]
      rw [ih hrest]
      simp [Except.map]

theorem readLoop_rest_error (env : ConcatEnv) (tt : Bool) (sr : Nat)
    (ps : List String) (hsr : 0 < sr)
    (h : ∃ p ∈ ps, (readOne env tt p).length < sr) :
    readLoop env tt sr (ps.map TableArg.path) false
      = Except.error startRowMsg := by
  induction ps with
  | nil =>
    obtain ⟨p, hp, _⟩ := h
    simp at hp
  | cons p rest ih =>
    simp only [List.map_cons, readLoop]
    rw [if_pos ⟨hsr, by simp⟩]
    by_cases hlen : sr > (readOne env tt p).length
    · rw [if_pos hlen]
    · rw [if_neg hlen]
      obtain ⟨q, hq, hql⟩ := h
      rcases List.mem_cons.mp hq with rfl | hq2
      · omega
      · rw [ih ⟨q, hq2, hql⟩]
        rfl

theorem readLoop_never_typeCheckMsg (env : ConcatEnv) (tt : Bool) (sr : Nat) :
    ∀ (l : List TableArg) (first : Bool),
      readLoop env tt sr l first ≠ Except.error typeCheckMsg := by
  intro l
  induction l with
  | nil =>
    intro first h
    cases h
  | cons tbl rest ih =>
    intro first h
    cases tbl with
    | path p =>
      simp only [readLoop] at h
      split at h
      · split at h
        · simp only [Except.error.injEq] at h
          exact absurd h (by decide)
        · cases hrec : readLoop env tt sr rest false with
          | error e =>
            rw [hrec] at h
            simp only [Except.map] at h
            exact ih false (hrec.trans (by simpa using h))
          | ok v =>
            rw [hrec] at h
            simp [Except.map] at h
      · cases hrec : readLoop env tt sr rest false with
        | error e =>
          rw [hrec] at h
          simp only [Except.map] at h
          exact ih false (hrec.trans (by simpa using h))
        | ok v =>
          rw [hrec] at h
          simp [Except.map] at h
    | df d =>
      simp only [readLoop, Except.error.injEq] at h
      exact absurd h (by decide)
    | other =>
      simp only [readLoop, Except.error.injEq] at h
      exact absurd h (by decide)

/-- C10 counterexample: in the DataFrame branch `start_row` is ignored —
with `tables = [df [[1]], df [[2],[3]]]` and `start_row = 1` the code
returns all three rows, not (as the claim predicts) all rows of the
first table and the rows from `start_row` onward of the second. -/
theorem C10_counterexample_df_branch_ignores_start_row :
    concatenate_tables_to_synapse_table testConcatEnv
        [TableArg.df [[1]], TableArg.df [[2], [3]]] false 1
      = Except.ok [[1], [2], [3]] ∧
    (Except.ok [[1], [2], [3]] : Except String (List (List Int)))
      ≠ Except.ok ([[1]] ++ List.drop 1 [[2], [3]]) := by
  constructor
  · rfl
  · intro h
    simp only [Except.ok.injEq] at h
    exact absurd h (by decide)

/-- C10 (amended): the function raises an IOError exactly when the
first element of `tables` is neither a str nor a DataFrame (the type
check inspects only `tables[0]`, so later elements of other types are
never rejected by it), and, when `tables` holds file paths, also raises
an IOError when `start_row` is positive and exceeds the row count of a
table after the first; when `tables` holds file paths it returns all
rows of the first table plus the rows from `start_row` onward of the
rest (all rows when `start_row = 0`); when `tables` holds DataFrames it
returns all rows of every table, with `start_row` ignored. -/
theorem C10_concatenate_behaviour (env : ConcatEnv) (tt : Bool) (sr : Nat) :
    (∀ rest : List TableArg,
      concatenate_tables_to_synapse_table env (TableArg.other :: rest) tt sr
        = Except.error typeCheckMsg) ∧
    (∀ (p : String) (rest : List TableArg),
      concatenate_tables_to_synapse_table env (TableArg.path p :: rest) tt sr
        ≠ Except.error typeCheckMsg) ∧
    (∀ (d : List (List Int)) (rest : List TableArg),
      concatenate_tables_to_synapse_table env (TableArg.df d :: rest) tt sr
        ≠ Except.error typeCheckMsg) ∧
    (∀ (p : String) (ps : List String),
      (∀ q ∈ ps, sr ≤ (readOne env tt q).length) →
      concatenate_tables_to_synapse_table env
          (TableArg.path p :: ps.map TableArg.path) tt sr
        = Except.ok (readOne env tt p
            ++ (ps.map (fun q => (readOne env tt q).drop sr)).flatten)) ∧
    (∀ (p : String) (ps : List String), 0 < sr →
      (∃ q ∈ ps, (readOne env tt q).length < sr) →
      concatenate_tables_to_synapse_table env
          (TableArg.path p :: ps.map TableArg.path) tt sr
        = Except.error startRowMsg) ∧
    (∀ (d : List (List Int)) (dfss : List (List (List Int))),
      concatenate_tables_to_synapse_table env
          ((d :: dfss).map TableArg.df) tt sr
        = Except.ok (d :: dfss).flatten) := by
  refine ⟨?_, ?_, ?_, ?_, ?_, ?_⟩
  · intro rest
    rfl
  · intro p rest h
    simp only [concatenate_tables_to_synapse_table] at h
    cases hrl : readLoop env tt sr (TableArg.path p :: rest) true with
    | error e =>
      rw [hrl] at h
      simp only [Except.error.injEq] at h
      exact readLoop_never_typeCheckMsg env tt sr (TableArg.path p :: rest) true
        (hrl.trans (by rw [h]))
    | ok v =>
      rw [hrl] at h
      cases h
  · intro d rest h
    simp only [concatenate_tables_to_synapse_table, concatDfs] at h
    cases hm : asDfAll (TableArg.df d :: rest) with
    | none =>
      simp only [hm] at h
      simp only [Except.error.injEq] at h
      exact absurd h (by decide)
    | some dfss =>
      simp only [hm] at h
      cases h
  · intro p ps h
    have hfo : readLoop env tt sr (TableArg.path p :: ps.map TableArg.path) true
        = Except.ok (readOne env tt p
            :: ps.map (fun q => (readOne env tt q).drop sr)) := by
      simp only [readLoop]
      rw [if_neg (by simp)]
      rw [readLoop_rest_ok env tt sr ps h]
      rfl
    simp only [concatenate_tables_to_synapse_table]
    rw [hfo]
    simp
  · intro p ps hsr h
    have hfe : readLoop env tt sr (TableArg.path p :: ps.map TableArg.path) true
        = Except.error startRowMsg := by
      simp only [readLoop]
      rw [if_neg (by simp)]
      rw [readLoop_rest_error env tt sr ps hsr h]
      rfl
    simp only [concatenate_tables_to_synapse_table]
    rw [hfe]
  · intro d dfss
    simp only [concatenate_tables_to_synapse_table, List.map_cons, concatDfs]
    rw [show (TableArg.df d :: dfss.map TableArg.df)
        = (d :: dfss).map TableArg.df from rfl]
    rw [asDfAll_map_df]

theorem C10_concatenate_behaviour_witness :
    concatenate_tables_to_synapse_table testConcatEnv
        [TableArg.path "t1.csv", TableArg.path "t2.csv"] false 1
      = Except.ok (readOne testConcatEnv false "t1.csv"
          ++ ((["t2.csv"] : List String).map
               (fun q => (readOne testConcatEnv false q).drop 1)).flatten) ∧
    concatenate_tables_to_synapse_table testConcatEnv
        (([[[1]], [[2], [3]]] : List (List (List Int))).map TableArg.df)
        false 1
      = Except.ok ([[[1]], [[2], [3]]] : List (List (List Int))).flatten := by
  constructor
  · exact (C10_concatenate_behaviour testConcatEnv false 1).2.2.2.1 "t1.csv"
      ["t2.csv"] (by decide)
  · exact (C10_concatenate_behaviour testConcatEnv false 1).2.2.2.2.2 [[1]]
      [[[2], [3]]]

end Mhealthx
